import Mathlib

/-!
Shallow embedding of the geofence event-tracker service (src/main.py).

Coordinates and distances are modelled over the reals; Python datetime
timestamps are modelled as an abstract tick count (a natural number),
since the core logic only ever copies timestamps around.  The two pieces
of global mutable state (the vehicle dictionary VEHICLE_STATE and the
append-only list EVENT_LOG) are gathered into an explicit ServerState
record that every stateful handler takes and returns.
-/

open Classical

/-- math.radians: degrees to radians. -/
noncomputable def radians (x : ℝ) : ℝ := x * Real.pi / 180

/-- math.atan2 over the reals (standard quadrant-aware arctangent). -/
noncomputable def atan2 (y x : ℝ) : ℝ :=
  if 0 < x then Real.arctan (y / x)
  else if x < 0 ∧ 0 ≤ y then Real.arctan (y / x) + Real.pi
  else if x < 0 ∧ y < 0 then Real.arctan (y / x) - Real.pi
  else if x = 0 ∧ 0 < y then Real.pi / 2
  else if x = 0 ∧ y < 0 then -(Real.pi / 2)
  else 0

/-- haversine_distance_m: great-circle distance in meters between two
lat/lng points, Earth radius 6371000 m (src/main.py lines 116-129). -/
noncomputable def haversine_distance_m (lat1 lon1 lat2 lon2 : ℝ) : ℝ :=
  let R : ℝ := 6371000
  let phi1 := radians lat1
  let phi2 := radians lat2
  let d_phi := radians (lat2 - lat1)
  let d_lambda := radians (lon2 - lon1)
  let a := Real.sin (d_phi / 2) ^ 2 +
    Real.cos phi1 * Real.cos phi2 * Real.sin (d_lambda / 2) ^ 2
  let c := 2 * atan2 (Real.sqrt a) (Real.sqrt (1 - a))
  R * c

/-- GeofenceZone: id, center and radius in meters. -/
structure GeofenceZone where
  id : String
  center_lat : ℝ
  center_lng : ℝ
  radius_m : ℝ

/-- The hardcoded zone catalog (src/main.py lines 85-104), in declaration
order: airport, downtown, suburb. -/
noncomputable def ZONES : List GeofenceZone :=
  [⟨"airport", 12.9611, 77.6387, 3000⟩,
   ⟨"downtown", 12.9716, 77.5946, 5000⟩,
   ⟨"suburb", 12.9956, 77.7000, 4000⟩]

/-- The loop body of find_zone_for_point, recursing over the catalog:
return the id of the first zone whose center is within radius_m of the
point, else none. -/
noncomputable def find_zone_aux (lat lng : ℝ) : List GeofenceZone → Option String
  | [] => none
  | zone :: rest =>
    if haversine_distance_m lat lng zone.center_lat zone.center_lng ≤ zone.radius_m then
      some zone.id
    else
      find_zone_aux lat lng rest

/-- find_zone_for_point (src/main.py lines 132-141): first matching zone
in catalog order, or none. -/
noncomputable def find_zone_for_point (lat lng : ℝ) : Option String :=
  find_zone_aux lat lng ZONES

/-- VehicleStatus record (src/main.py lines 59-64). -/
structure VehicleStatus where
  vehicleId : String
  currentZone : Option String
  lastLatitude : ℝ
  lastLongitude : ℝ
  lastUpdated : ℕ

/-- ZoneEvent record (src/main.py lines 67-73); eventType is "enter" or
"exit". -/
structure ZoneEvent where
  eventType : String
  vehicleId : String
  zoneId : String
  timestamp : ℕ
  fromZone : Option String
  toZone : Option String
deriving DecidableEq

/-- The global mutable state of the service: the vehicle dictionary and
the append-only event log (src/main.py lines 107-110). -/
structure ServerState where
  VEHICLE_STATE : String → Option VehicleStatus
  EVENT_LOG : List ZoneEvent

/-- Result of the /location handler: the LocationResponse payload
(status, generatedEvents) together with the updated global state. -/
structure IngestResult where
  status : VehicleStatus
  generatedEvents : List ZoneEvent
  state : ServerState

/-- prev_zone lookup in ingest_location: prev_state.currentZone when the
vehicle is known, else None (src/main.py lines 170-171). -/
def prevZoneOf (s : ServerState) (vehicle_id : String) : Option String :=
  match s.VEHICLE_STATE vehicle_id with
  | some prev_state => prev_state.currentZone
  | none => none

/-- ingest_location (src/main.py lines 153-239): resolve the new zone,
compare with the previous zone, generate 0, 1 or 2 transition events,
append them to the event log, and unconditionally overwrite the vehicle
state entry. -/
noncomputable def ingest_location (s : ServerState) (vehicle_id : String)
    (lat lng : ℝ) (ts : ℕ) : IngestResult :=
  let current_zone := find_zone_for_point lat lng
  let prev_zone := prevZoneOf s vehicle_id
  let generated_events : List ZoneEvent :=
    if prev_zone ≠ current_zone then
      match prev_zone, current_zone with
      | none, some cz =>
        [⟨"enter", vehicle_id, cz, ts, none, some cz⟩]
      | some pz, none =>
        [⟨"exit", vehicle_id, pz, ts, some pz, none⟩]
      | some pz, some cz =>
        [⟨"exit", vehicle_id, pz, ts, some pz, some cz⟩,
         ⟨"enter", vehicle_id, cz, ts, some pz, some cz⟩]
      | none, none => []
    else []
  let new_state : VehicleStatus := ⟨vehicle_id, current_zone, lat, lng, ts⟩
  { status := new_state
    generatedEvents := generated_events
    state :=
      { VEHICLE_STATE := fun k => if k = vehicle_id then some new_state else s.VEHICLE_STATE k
        EVENT_LOG := s.EVENT_LOG ++ generated_events } }

/-- get_vehicle_status (src/main.py lines 243-250): 404 when the vehicle
has no recorded state; the handler performs no writes, so the state is
returned unchanged. -/
def get_vehicle_status (s : ServerState) (vehicle_id : String) :
    Except String VehicleStatus × ServerState :=
  match s.VEHICLE_STATE vehicle_id with
  | none => (Except.error "Vehicle not found", s)
  | some state => (Except.ok state, s)

/-- Python list slice xs[i:] for an arbitrary integer i: a nonnegative
start index is clipped to the length, a negative one counts from the
end, clipped to 0. -/
def pySliceFrom (xs : List α) (i : ℤ) : List α :=
  if 0 ≤ i then xs.drop i.toNat
  else xs.drop (xs.length - (-i).toNat)

/-- The filtering step of list_events: Python `if vehicleId:` skips the
filter when the parameter is absent or the empty string. -/
def filteredEvents (s : ServerState) (vehicleId : Option String) : List ZoneEvent :=
  match vehicleId with
  | some v => if v ≠ "" then s.EVENT_LOG.filter (fun e => e.vehicleId == v) else s.EVENT_LOG
  | none => s.EVENT_LOG

/-- list_events (src/main.py lines 254-262): optional vehicleId filter,
then the Python slice events[-limit:]; the declared default for limit
is 100. -/
def list_events (s : ServerState) (vehicleId : Option String) (limit : ℤ) : List ZoneEvent :=
  pySliceFrom (filteredEvents s vehicleId) (-limit)

/-- A batch of location updates (vehicleId, lat, lng, timestamp) applied
in order through ingest_location, used to express replay after
intervening traffic. -/
noncomputable def runUpdates (us : List (String × ℝ × ℝ × ℕ)) (s : ServerState) : ServerState :=
  us.foldl (fun st u => (ingest_location st u.1 u.2.1 u.2.2.1 u.2.2.2).state) s

/-- Spec-side description of the events generated by one ingest call
(spec section 4.4, claim C1), written from the spec text: empty when the
zones agree, one enter when entering from nowhere, one exit when leaving
to nowhere, exit-then-enter sharing fromZone/toZone for a direct
zone-to-zone transition. -/
def specTransitionEvents (prevZone newZone : Option String)
    (v : String) (ts : ℕ) : List ZoneEvent :=
  if prevZone = newZone then []
  else
    match prevZone, newZone with
    | none, some z => [⟨"enter", v, z, ts, none, some z⟩]
    | some p, none => [⟨"exit", v, p, ts, some p, none⟩]
    | some p, some z =>
      [⟨"exit", v, p, ts, some p, some z⟩, ⟨"enter", v, z, ts, some p, some z⟩]
    | none, none => []

/-- Spec-side description of the membership resolver (spec section 4.3,
claim C2), written from the spec text: the first zone in catalog order
whose great-circle distance from the center is at most its radius. -/
noncomputable def resolveZone_spec (catalog : List GeofenceZone) (lat lng : ℝ) : Option String :=
  (catalog.find? fun z =>
    decide (haversine_distance_m lat lng z.center_lat z.center_lng ≤ z.radius_m)).map
    (fun z => z.id)

/-- Spec-side "most recent n, oldest of the window first" (spec section
4.6, claim C7): the last n elements of a list, preserving order. -/
def specLastN (xs : List α) (n : ℕ) : List α :=
  (xs.reverse.take n).reverse

/-- Claim C6's invariant: every currentZone stored in the vehicle state
is the id of some zone of the catalog. -/
def catalogConsistent (s : ServerState) : Prop :=
  ∀ w st, s.VEHICLE_STATE w = some st →
    ∀ z, st.currentZone = some z → ∃ zo ∈ ZONES, zo.id = z

/-- An empty server state: no vehicles, empty log. -/
def emptyState : ServerState := ⟨fun _ => none, []⟩

/-- A sample enter event for vehicle V1. -/
def sampleEvent : ZoneEvent := ⟨"enter", "V1", "airport", 0, none, some "airport"⟩

/-- A sample exit event for vehicle V2. -/
def sampleEvent2 : ZoneEvent := ⟨"exit", "V2", "airport", 1, some "airport", none⟩

/-- A server state whose event log holds 101 identical events. -/
def bigLogState : ServerState := ⟨fun _ => none, List.replicate 101 sampleEvent⟩

/-- A server state whose event log holds a single V1 event. -/
def oneEventState : ServerState := ⟨fun _ => none, [sampleEvent]⟩

/-- A server state whose event log holds one V1 event and one V2 event. -/
def twoEventState : ServerState := ⟨fun _ => none, [sampleEvent, sampleEvent2]⟩

/-! ## Helper lemmas -/

theorem radians_zero : radians 0 = 0 := by
  simp [radians]

theorem atan2_zero_one : atan2 0 1 = 0 := by
  simp [atan2]

theorem find_zone_aux_eq_spec (lat lng : ℝ) (zs : List GeofenceZone) :
    find_zone_aux lat lng zs = resolveZone_spec zs lat lng := by
  induction zs with
  | nil => simp [find_zone_aux, resolveZone_spec]
  | cons z rest ih =>
    by_cases h : haversine_distance_m lat lng z.center_lat z.center_lng ≤ z.radius_m
    · simp [find_zone_aux, resolveZone_spec, List.find?, h]
    · simp only [find_zone_aux, resolveZone_spec, List.find?, h, if_neg,
        decide_eq_true_eq] at ih ⊢
      simpa [h] using ih

theorem find_zone_aux_mem (lat lng : ℝ) (zs : List GeofenceZone) (z : String)
    (h : find_zone_aux lat lng zs = some z) : ∃ zo ∈ zs, zo.id = z := by
  induction zs with
  | nil => simp [find_zone_aux] at h
  | cons a rest ih =>
    rw [find_zone_aux] at h
    split at h
    · exact ⟨a, by simp, by injection h⟩
    · obtain ⟨zo, hz, hid⟩ := ih h
      exact ⟨zo, by simp [hz], hid⟩

/-! ## Claim theorems -/

/-- Claim C10: for every in-range coordinate, the haversine distance from
a point to itself is exactly 0.  (Over the real-number model there are no
NaNs; the range hypotheses carry the claim's in-range side condition.) -/
theorem haversine_self_eq_zero (lat lon : ℝ) (h1 : -90 ≤ lat) (h2 : lat ≤ 90)
    (h3 : -180 ≤ lon) (h4 : lon ≤ 180) :
    haversine_distance_m lat lon lat lon = 0 := by
  simp [haversine_distance_m, radians, atan2, sub_self]

theorem haversine_self_eq_zero_witness :
    (-90 : ℝ) ≤ 0 ∧ (0 : ℝ) ≤ 90 ∧ (-180 : ℝ) ≤ 0 ∧ (0 : ℝ) ≤ 180 ∧
      haversine_distance_m 0 0 0 0 = 0 :=
  ⟨by norm_num, by norm_num, by norm_num, by norm_num,
   haversine_self_eq_zero 0 0 (by norm_num) (by norm_num) (by norm_num) (by norm_num)⟩

/-- Claim C2: the membership resolver returns the id of the first zone of
the catalog, in declaration order, whose great-circle distance from the
center is at most its radius, and none when no zone matches (first match
wins among overlapping zones). -/
theorem find_zone_first_match (lat lng : ℝ) :
    find_zone_for_point lat lng = resolveZone_spec ZONES lat lng :=
  find_zone_aux_eq_spec lat lng ZONES

theorem ingest_generatedEvents_eq (s : ServerState) (v : String) (lat lng : ℝ) (ts : ℕ) :
    (ingest_location s v lat lng ts).generatedEvents =
      specTransitionEvents (prevZoneOf s v) (find_zone_for_point lat lng) v ts := by
  unfold ingest_location specTransitionEvents
  cases prevZoneOf s v <;> cases find_zone_for_point lat lng
  · simp
  · simp
  · simp
  · rename_i p z
    by_cases hpz : p = z <;> simp [hpz]

theorem specTransitionEvents_length_le_two (p z : Option String) (v : String) (ts : ℕ) :
    (specTransitionEvents p z v ts).length ≤ 2 := by
  unfold specTransitionEvents
  cases p <;> cases z <;> split <;> simp

/-- Claim C1: the event sequence generated by an ingest call is exactly
determined by the previous and new zone — empty when they agree, one
enter when entering from nowhere, one exit when leaving to nowhere, and
exit-then-enter (both with fromZone=prevZone, toZone=newZone and the
update's timestamp) for a direct transition; the count is never 3 or
more. -/
theorem ingest_generated_events_spec (s : ServerState) (v : String) (lat lng : ℝ) (ts : ℕ) :
    (ingest_location s v lat lng ts).generatedEvents =
      specTransitionEvents (prevZoneOf s v) (find_zone_for_point lat lng) v ts ∧
    (ingest_location s v lat lng ts).generatedEvents.length ≤ 2 :=
  ⟨ingest_generatedEvents_eq s v lat lng ts, by
    rw [ingest_generatedEvents_eq]
    exact specTransitionEvents_length_le_two _ _ v ts⟩

theorem ingest_state_at_self (s : ServerState) (v : String) (lat lng : ℝ) (ts : ℕ) :
    (ingest_location s v lat lng ts).state.VEHICLE_STATE v =
      some ⟨v, find_zone_for_point lat lng, lat, lng, ts⟩ := by
  simp [ingest_location]

/-- Claim C4: every ingest call, whether or not it generates events,
overwrites the vehicle state entry for the given vehicle id with the new
coordinate, the newly resolved zone and the update's timestamp; unknown
vehicle ids are implicitly created since the statement has no
precondition on the prior state. -/
theorem ingest_overwrites_vehicle_state (s : ServerState) (v : String)
    (lat lng : ℝ) (ts : ℕ) :
    (ingest_location s v lat lng ts).state.VEHICLE_STATE v =
      some ⟨v, find_zone_for_point lat lng, lat, lng, ts⟩ :=
  ingest_state_at_self s v lat lng ts

theorem ingest_preserves_other_vehicle (s : ServerState) (u v : String)
    (lat lng : ℝ) (ts : ℕ) (h : v ≠ u) :
    (ingest_location s u lat lng ts).state.VEHICLE_STATE v = s.VEHICLE_STATE v := by
  simp [ingest_location, h]

/-- Claim C8: frame property of ingest — the entries of all other
vehicles are untouched, and the event log afterwards is the event log
before with exactly this call's generated events appended in order. -/
theorem ingest_frame_property (s : ServerState) (v : String) (lat lng : ℝ) (ts : ℕ) :
    (∀ w, w ≠ v → (ingest_location s v lat lng ts).state.VEHICLE_STATE w = s.VEHICLE_STATE w) ∧
    (ingest_location s v lat lng ts).state.EVENT_LOG =
      s.EVENT_LOG ++ (ingest_location s v lat lng ts).generatedEvents :=
  ⟨fun w hw => ingest_preserves_other_vehicle s v w lat lng ts hw, by simp [ingest_location]⟩

theorem ingest_frame_property_witness :
    (ingest_location emptyState "V1" 0 0 0).state.VEHICLE_STATE "V2" =
      emptyState.VEHICLE_STATE "V2" ∧
    (ingest_location emptyState "V1" 0 0 0).state.EVENT_LOG =
      emptyState.EVENT_LOG ++ (ingest_location emptyState "V1" 0 0 0).generatedEvents :=
  ⟨(ingest_frame_property emptyState "V1" 0 0 0).1 "V2" (by decide),
   (ingest_frame_property emptyState "V1" 0 0 0).2⟩

theorem find_zone_for_point_mem_catalog (lat lng : ℝ) (z : String)
    (h : find_zone_for_point lat lng = some z) : ∃ zo ∈ ZONES, zo.id = z :=
  find_zone_aux_mem lat lng ZONES z h

/-- Claim C6: every ingest call preserves the invariant that each stored
currentZone, when present, is the id of some zone of the fixed catalog. -/
theorem ingest_preserves_zone_catalog_invariant (s : ServerState) (v : String)
    (lat lng : ℝ) (ts : ℕ) (h : catalogConsistent s) :
    catalogConsistent (ingest_location s v lat lng ts).state := by
  intro w st hw z hz
  by_cases hwv : w = v
  · subst hwv
    rw [ingest_state_at_self] at hw
    injection hw with hw
    rw [← hw] at hz
    exact find_zone_for_point_mem_catalog lat lng z hz
  · rw [ingest_preserves_other_vehicle s v w lat lng ts hwv] at hw
    exact h w st hw z hz

theorem ingest_preserves_zone_catalog_invariant_witness :
    catalogConsistent (ingest_location emptyState "V1" 0 0 0).state :=
  ingest_preserves_zone_catalog_invariant emptyState "V1" 0 0 0
    (fun w st hw => by simp [emptyState] at hw)

theorem runUpdates_preserves_vehicle (us : List (String × ℝ × ℝ × ℕ)) (v : String)
    (h : ∀ u ∈ us, u.1 ≠ v) (s : ServerState) :
    (runUpdates us s).VEHICLE_STATE v = s.VEHICLE_STATE v := by
  induction us generalizing s with
  | nil => rfl
  | cons a rest ih =>
    rw [runUpdates, List.foldl_cons]
    rw [show List.foldl (fun st u => (ingest_location st u.1 u.2.1 u.2.2.1 u.2.2.2).state)
      ((ingest_location s a.1 a.2.1 a.2.2.1 a.2.2.2).state) rest =
      runUpdates rest ((ingest_location s a.1 a.2.1 a.2.2.1 a.2.2.2).state) from rfl]
    rw [ih (fun u hu => h u (List.mem_cons_of_mem a hu))]
    exact ingest_preserves_other_vehicle s a.1 v a.2.1 a.2.2.1 a.2.2.2
      (fun hv => h a (List.mem_cons_self a rest) hv.symm)

/-- Claim C5: replaying the exact same update for a vehicle — possibly
after intervening updates, none of them for that vehicle — generates
zero events on the second call, since the previous and new zone then
agree. -/
theorem ingest_replay_no_events (s : ServerState) (v : String) (lat lng : ℝ) (ts : ℕ)
    (mid : List (String × ℝ × ℝ × ℕ)) (hmid : ∀ u ∈ mid, u.1 ≠ v) :
    (ingest_location (runUpdates mid (ingest_location s v lat lng ts).state)
      v lat lng ts).generatedEvents = [] := by
  rw [ingest_generatedEvents_eq]
  have h1 : prevZoneOf (runUpdates mid (ingest_location s v lat lng ts).state) v =
      find_zone_for_point lat lng := by
    rw [prevZoneOf, runUpdates_preserves_vehicle mid v hmid, ingest_state_at_self]
  rw [h1]
  simp [specTransitionEvents]

theorem ingest_replay_no_events_witness :
    (ingest_location (runUpdates [("V2", 1, 1, 1)]
        (ingest_location emptyState "V1" 0 0 0).state) "V1" 0 0 0).generatedEvents = [] :=
  ingest_replay_no_events emptyState "V1" 0 0 0 [("V2", 1, 1, 1)]
    (fun u hu => by
      rw [List.mem_singleton] at hu
      subst hu
      decide)

/-- Claim C9: querying the status of a vehicle id that never submitted an
update signals the not-found error, and the server state is returned
unchanged (the handler performs no writes). -/
theorem get_status_unknown_not_found (s : ServerState) (v : String)
    (h : s.VEHICLE_STATE v = none) :
    get_vehicle_status s v = (Except.error "Vehicle not found", s) := by
  simp [get_vehicle_status, h]

theorem get_status_unknown_not_found_witness :
    get_vehicle_status emptyState "ghost" = (Except.error "Vehicle not found", emptyState) :=
  get_status_unknown_not_found emptyState "ghost" rfl

/-- Counterexample to claim C3: with limit = 0 (which is ≤ 0) and a log
of 101 events, list_events returns all 101 events — more than the
default cap of 100 the claim promises. -/
theorem list_events_limit_zero_exceeds_cap :
    (0 : ℤ) ≤ 0 ∧ ¬ (list_events bigLogState none 0).length ≤ 100 := by
  constructor
  · decide
  · have h : (list_events bigLogState none 0).length = 101 := by
      simp [list_events, filteredEvents, bigLogState, pySliceFrom]
    omega

/-- Claim C3 (amended): when limit is omitted the declared default 100
applies and at most 100 events are returned; when limit ≤ 0 the Python
slice events[-limit:] instead returns the whole filtered log minus its
first (-limit) elements — all of it when limit = 0 — which can exceed
100 events. -/
theorem list_events_default_and_nonpositive_limit (s : ServerState)
    (vehicleId : Option String) :
    (list_events s vehicleId 100).length ≤ 100 ∧
    ∀ limit : ℤ, limit ≤ 0 →
      list_events s vehicleId limit = (filteredEvents s vehicleId).drop (-limit).toNat := by
  constructor
  · rw [list_events, pySliceFrom, if_neg (by norm_num), List.length_drop,
      (by decide : (-(-(100 : ℤ))).toNat = 100)]
    omega
  · intro limit hl
    rw [list_events, pySliceFrom, if_pos (by omega : (0 : ℤ) ≤ -limit)]

theorem list_events_default_and_nonpositive_limit_witness :
    (list_events bigLogState none 100).length ≤ 100 ∧
    ((-1 : ℤ) ≤ 0 ∧ list_events bigLogState none (-1) =
      (filteredEvents bigLogState none).drop (-(-1 : ℤ)).toNat) :=
  ⟨(list_events_default_and_nonpositive_limit bigLogState none).1,
   by decide,
   (list_events_default_and_nonpositive_limit bigLogState none).2 (-1) (by decide)⟩

/-- Counterexample to claim C7: with the filter present but equal to the
empty string, Python treats the filter as absent, so an event whose
vehicleId is "V1" (and hence does not equal the filter) is returned. -/
theorem list_events_empty_filter_not_filtered :
    (0 : ℤ) < 1 ∧ ¬ (∀ e ∈ list_events oneEventState (some "") 1, e.vehicleId = "") := by
  decide

theorem specLastN_eq_drop (xs : List α) (n : ℕ) :
    specLastN xs n = xs.drop (xs.length - n) := by
  rw [specLastN, ← List.rtake_eq_reverse_take_reverse]
  rfl

/-- Claim C7 (amended): for every positive limit N, list_events returns
the last N elements (all, if fewer) of the filtered log in their
insertion order, never more than N events, where filtering by vehicleId
applies exactly when the filter is a non-empty string (an absent or
empty filter leaves the log unfiltered); with a non-empty filter every
returned event carries that vehicleId. -/
theorem list_events_last_limit_spec (s : ServerState) (vehicleId : Option String)
    (limit : ℤ) (hpos : 0 < limit) :
    list_events s vehicleId limit = specLastN (filteredEvents s vehicleId) limit.toNat ∧
    (list_events s vehicleId limit).length ≤ limit.toNat ∧
    (∀ v, vehicleId = some v → v ≠ "" →
      ∀ e ∈ list_events s vehicleId limit, e.vehicleId = v) := by
  have heq : list_events s vehicleId limit =
      (filteredEvents s vehicleId).drop
        ((filteredEvents s vehicleId).length - limit.toNat) := by
    rw [list_events, pySliceFrom, if_neg (by omega : ¬ (0 : ℤ) ≤ -limit), neg_neg]
  refine ⟨by rw [heq, specLastN_eq_drop], ?_, ?_⟩
  · rw [heq, List.length_drop]
    omega
  · intro v hv hne e he
    rw [heq] at he
    have hmem : e ∈ filteredEvents s vehicleId := List.drop_subset _ _ he
    rw [hv] at hmem
    simp only [filteredEvents, if_pos hne] at hmem
    have h2 := List.mem_filter.mp hmem
    simpa using h2.2

theorem list_events_last_limit_spec_witness :
    (0 : ℤ) < 1 ∧
    list_events twoEventState (some "V1") 1 =
      specLastN (filteredEvents twoEventState (some "V1")) (1 : ℤ).toNat ∧
    (list_events twoEventState (some "V1") 1).length ≤ (1 : ℤ).toNat ∧
    (∀ e ∈ list_events twoEventState (some "V1") 1, e.vehicleId = "V1") :=
  ⟨by decide,
   (list_events_last_limit_spec twoEventState (some "V1") 1 (by decide)).1,
   (list_events_last_limit_spec twoEventState (some "V1") 1 (by decide)).2.1,
   (list_events_last_limit_spec twoEventState (some "V1") 1 (by decide)).2.2
     "V1" rfl (by decide)⟩
